import Mathlib

/-!
# Verification of the sadasadam orchestration pipeline

A shallow embedding of the retry-aware download-and-extract pipeline
(`sadasadam/download.py`), the index-derivation stage
(`sadasadam/indices.py`) and the postprocessing pipeline
(`sadasadam/force.py`), together with theorems settling the frozen
claims about them.

Conventions of the embedding:
* the filesystem and every external adapter (eodag, `zipfile`,
  `shutil`, GDAL, `gdal_calc.py`) are modelled by explicit data:
  per-entry outcome flags, a checksum oracle, and effect lists that
  record which adapter calls the orchestration code issues;
* Python strings are Lean `String`s; `str.endswith`, `str.replace`,
  `x in s` and `str.split` are re-implemented structurally over
  `List Char` so that the kernel can evaluate them on concrete data;
* fallible code returns `Except String` values, and an exception that
  escapes a handler is recorded as an `aborted` flag on the state.
-/

namespace Sadasadam

/-! ## String primitives

Structural re-implementations of the Python string operations used by
the source (`str.endswith`, `str.replace` — all non-overlapping
occurrences, left to right —, substring containment `in`,
`str.split(".")[0]`, `os.path.basename`, `os.path.join`). -/

/-- Python `s.endswith(p)`. -/
def strEndsWith (s p : String) : Bool := p.data.isSuffixOf s.data

/-- Scanner for `strReplace`: at skip count 0 it tries to match `pat` at
the current position, emitting `rep` and skipping the matched
characters on success; a positive skip count consumes characters that
belong to an already-matched occurrence. -/
def replaceGo (pat rep : List Char) : List Char → Nat → List Char
  | [], _ => []
  | c :: rest, 0 =>
      if pat.isPrefixOf (c :: rest) then
        rep ++ replaceGo pat rep rest (pat.length - 1)
      else c :: replaceGo pat rep rest 0
  | _ :: rest, k + 1 => replaceGo pat rep rest k

/-- Python `s.replace(pat, rep)` for a non-empty `pat`. -/
def strReplace (s pat rep : String) : String :=
  ⟨replaceGo pat.data rep.data s.data 0⟩

/-- Helper for `strContains`. -/
def containsGo (pat : List Char) : List Char → Bool
  | [] => pat.isEmpty
  | c :: rest => pat.isPrefixOf (c :: rest) || containsGo pat rest

/-- Python `pat in s`. -/
def strContains (s pat : String) : Bool := containsGo pat.data s.data

/-- Helper for `strFirstDotComponent`. -/
def takeUntilDot : List Char → List Char
  | [] => []
  | c :: rest => if c = '.' then [] else c :: takeUntilDot rest

/-- Python `s.split(".")[0]`: the characters before the first dot. -/
def strFirstDotComponent (s : String) : String := ⟨takeUntilDot s.data⟩

/-- Python `os.path.basename`: the characters after the last slash. -/
def basename (s : String) : String :=
  ⟨(s.data.reverse.takeWhile (fun c => c ≠ '/')).reverse⟩

/-- Python `os.path.join` for a relative second component. -/
def pathJoin (a b : String) : String := a ++ "/" ++ b

/-- Two suffix tests on the same string cannot both succeed when the
shorter candidate is not itself a suffix of the longer one. -/
theorem strEndsWith_excl {s p q : String}
    (hp : strEndsWith s p = true)
    (hlen : q.data.length ≤ p.data.length)
    (hq : q.data.isSuffixOf p.data = false) :
    strEndsWith s q = false := by
  by_contra h
  rw [Bool.not_eq_false] at h
  unfold strEndsWith at hp h
  rw [List.isSuffixOf_iff_suffix] at hp h
  have hsuf : q.data <:+ p.data :=
    List.suffix_of_suffix_length_le h hp hlen
  have h2 : q.data.isSuffixOf p.data = true :=
    List.isSuffixOf_iff_suffix.mpr hsuf
  rw [hq] at h2
  exact Bool.false_ne_true h2

/-! ## download.py — the acquisition pipeline

`extract_and_delete_tar_gz_files(directory)` iterates over the
directory listing, classifies each entry by suffix and extracts /
deletes it; the embedding keeps per-entry adapter outcomes in
`FsEntry` and records every filesystem effect in `ScanState`. -/

/-- One entry of the download directory, together with the outcomes of
the adapter calls the scan may issue for it:
`isDir` — the path is a directory (so `os.remove` on it raises);
`listOk` — `os.listdir(path)` succeeds;
`mkdirOk` — `os.makedirs` for the tar extraction subdirectory succeeds;
`zipOpenOk` — `zipfile.ZipFile(path)` succeeds;
`zipTest` — the result of `testzip()` (`none` = no bad member);
`unpackOk` — `shutil.unpack_archive` succeeds. -/
structure FsEntry where
  name : String
  isDir : Bool
  listOk : Bool
  mkdirOk : Bool
  zipOpenOk : Bool
  zipTest : Option String
  unpackOk : Bool
deriving Repr, DecidableEq

/-- The effects accumulated by the scan: the `corrupt_files` list the
Python function builds, the paths successfully passed to `os.remove`,
the archive paths passed to `shutil.unpack_archive`, the extraction
subdirectories created resp. removed, and whether an exception escaped
the per-file handler (aborting the whole scan). -/
structure ScanState where
  corrupt : List String
  removed : List String
  unpackCalls : List String
  extractDirsMade : List String
  extractDirsRemoved : List String
  aborted : Bool
deriving Repr, DecidableEq

def emptyDelta : ScanState :=
  { corrupt := [], removed := [], unpackCalls := [], extractDirsMade := [],
    extractDirsRemoved := [], aborted := false }

/-- The contribution of a single directory entry to the scan state,
following the source line by line.  `handler` is the `except` branch
(append to `corrupt_files`, `os.remove(file_path)` — which raises
uncaught when the path is a directory —, then `shutil.rmtree` of the
tar extraction directory if one was created); `finish` is the tail of
the `try` block (`os.remove(file_path)`, whose failure on a directory
is caught by the handler). -/
def entryDelta (directory : String) (e : FsEntry) : ScanState :=
  if !(strEndsWith e.name ".SAFE.zip" || strEndsWith e.name ".tar.gz" ||
       strEndsWith e.name ".SAFE") then emptyDelta
  else
    let file_path := pathJoin directory e.name
    let handler := fun (s : ScanState) (landsat_extract_dir : Option String) =>
      let s := { s with corrupt := s.corrupt ++ [file_path] }
      if e.isDir then
        { s with aborted := true }
      else
        let s := { s with removed := s.removed ++ [file_path] }
        match landsat_extract_dir with
        | some d => { s with extractDirsRemoved := s.extractDirsRemoved ++ [d] }
        | none => s
    let finish := fun (s : ScanState) (landsat_extract_dir : Option String) =>
      if e.isDir then handler s landsat_extract_dir
      else { s with removed := s.removed ++ [file_path] }
    if strEndsWith e.name ".tar.gz" then
      if e.mkdirOk then
        let extract_dir := pathJoin directory (strFirstDotComponent e.name)
        let s := { emptyDelta with extractDirsMade := [extract_dir] }
        let s := { s with unpackCalls := s.unpackCalls ++ [file_path] }
        if e.unpackOk then finish s (some extract_dir)
        else handler s (some extract_dir)
      else handler emptyDelta none
    else if strEndsWith e.name ".SAFE.zip" then
      if e.zipOpenOk then
        match e.zipTest with
        | some _ =>
            let s := { emptyDelta with corrupt := [file_path] }
            finish s none
        | none =>
            let s := { emptyDelta with unpackCalls := [file_path] }
            if e.unpackOk then finish s none
            else handler s none
      else handler emptyDelta none
    else
      if e.listOk then finish emptyDelta none
      else handler emptyDelta none

/-- Appends the effects of one entry to the running state; once a scan
has aborted (an exception escaped the handler) no further entry is
processed. -/
def processEntry (directory : String) (s : ScanState) (e : FsEntry) : ScanState :=
  if s.aborted then s
  else
    let d := entryDelta directory e
    { corrupt := s.corrupt ++ d.corrupt,
      removed := s.removed ++ d.removed,
      unpackCalls := s.unpackCalls ++ d.unpackCalls,
      extractDirsMade := s.extractDirsMade ++ d.extractDirsMade,
      extractDirsRemoved := s.extractDirsRemoved ++ d.extractDirsRemoved,
      aborted := d.aborted }

/-- `extract_and_delete_tar_gz_files(directory)` over the given
directory listing. -/
def extract_and_delete_tar_gz_files (directory : String)
    (entries : List FsEntry) : ScanState :=
  entries.foldl (processEntry directory) emptyDelta

/-! The retry loop of `download_and_extract`.  The network download is
a blocking batch call whose corrupt-extraction outcome per round is
the only data the loop inspects, so the embedding takes the outcomes
as a function from the round number (the value of `count` when the
round starts) to the `corrupt_files` list the extraction returns. -/

/-- The loop variables of `download_and_extract`:
`run_download`, `count`, and the `corrupt_files` list of the most
recent round. -/
structure DLState where
  run_download : Bool
  count : Nat
  corruptLast : List String
deriving Repr, DecidableEq

def dlInit : DLState := { run_download := true, count := 0, corruptLast := [] }

/-- One iteration of the `while run_download is True` loop: download
every product, extract, clear the flag when no file was corrupt,
increment `count`, clear the flag when `count == max_tries`. -/
def dlStep (outcomes : Nat → List String) (max_tries : Nat) (s : DLState) :
    DLState :=
  if s.run_download then
    let corrupt_files := outcomes s.count
    let run1 : Bool := if corrupt_files.length = 0 then false else s.run_download
    let count1 := s.count + 1
    let run2 : Bool := if count1 = max_tries then false else run1
    { run_download := run2, count := count1, corruptLast := corrupt_files }
  else s

/-- The loop state after `fuel` iterations. -/
def dlRun (outcomes : Nat → List String) (max_tries : Nat) : Nat → DLState
  | 0 => dlInit
  | n + 1 => dlStep outcomes max_tries (dlRun outcomes max_tries n)

/-- `download_and_extract(...)`: runs the retry loop (for `max_tries ≥ 1`
it is stationary after `max_tries` iterations, see
`download_rounds_bounded`) and — the Python function body has no
`return` statement — evaluates to `None`. -/
def download_and_extract (outcomes : Nat → List String) (max_tries : Nat) :
    Option (List String) :=
  let _ := dlRun outcomes max_tries max_tries
  none

/-- Modelled from the spec: the contract
`acquire(...) -> list[corruptPathsRemaining]` — the acquisition call
returns the corrupt scene paths remaining after the final round. -/
def acquireSpec (outcomes : Nat → List String) (max_tries : Nat) :
    Option (List String) :=
  some (dlRun outcomes max_tries max_tries).corruptLast

/-! ### Loop lemmas for the retry bound -/

theorem dlStep_stopped {o : Nat → List String} {m : Nat} {s : DLState}
    (h : s.run_download = false) : dlStep o m s = s := by
  simp [dlStep, h]

theorem dlRun_succ (o : Nat → List String) (m n : Nat) :
    dlRun o m (n + 1) = dlStep o m (dlRun o m n) := rfl

/-- Invariant: while the loop is running, `count` equals the number of
iterations performed. -/
theorem dlRun_count_of_running (o : Nat → List String) (m : Nat) :
    ∀ f, (dlRun o m f).run_download = true → (dlRun o m f).count = f := by
  intro f
  induction f with
  | zero => intro _; rfl
  | succ n ih =>
      intro h
      rw [dlRun_succ] at h ⊢
      by_cases hr : (dlRun o m n).run_download = true
      · have hc := ih hr
        simp only [dlStep, hr, if_true, hc]
      · rw [Bool.not_eq_true] at hr
        rw [dlStep_stopped hr] at h
        rw [h] at hr
        exact absurd hr (by simp)

/-- Invariant: for `m ≥ 1` the counter never exceeds `m`, and reaching
`m` forces the loop flag off. -/
theorem dlRun_count_le (o : Nat → List String) (m : Nat) (hm : 1 ≤ m) :
    ∀ f, (dlRun o m f).count ≤ m ∧
      ((dlRun o m f).count = m → (dlRun o m f).run_download = false) := by
  intro f
  induction f with
  | zero =>
      refine ⟨Nat.zero_le m, fun h => ?_⟩
      exact absurd h.symm (by simpa [dlInit] using Nat.ne_of_gt hm)
  | succ n ih =>
      rw [dlRun_succ]
      by_cases hr : (dlRun o m n).run_download = true
      · have hlt : (dlRun o m n).count < m := by
          rcases Nat.lt_or_ge (dlRun o m n).count m with h | h
          · exact h
          · have heq : (dlRun o m n).count = m := Nat.le_antisymm ih.1 h
            rw [ih.2 heq] at hr
            exact absurd hr (by simp)
        constructor
        · simp only [dlStep, hr, if_true]
          exact hlt
        · intro hc
          simp only [dlStep, hr, if_true] at hc ⊢
          rw [if_pos hc]
      · rw [Bool.not_eq_true] at hr
        rw [dlStep_stopped hr]
        exact ⟨ih.1, fun _ => hr⟩

/-- Once a round found no corrupt files, the counter never moves past
that round. -/
theorem dlRun_count_le_of_empty (o : Nat → List String) (m : Nat) (j : Nat)
    (hj : o j = []) :
    ∀ f, (dlRun o m f).count ≤ j + 1 ∧
      ((dlRun o m f).count = j + 1 → (dlRun o m f).run_download = false) := by
  intro f
  induction f with
  | zero =>
      exact ⟨Nat.zero_le _, fun h => by simp [dlRun, dlInit] at h⟩
  | succ n ih =>
      rw [dlRun_succ]
      by_cases hr : (dlRun o m n).run_download = true
      · have hle : (dlRun o m n).count ≤ j := by
          rcases Nat.lt_or_ge (dlRun o m n).count (j + 1) with h | h
          · exact Nat.lt_succ_iff.mp h
          · have heq : (dlRun o m n).count = j + 1 := Nat.le_antisymm ih.1 h
            rw [ih.2 heq] at hr
            exact absurd hr (by simp)
        constructor
        · simp only [dlStep, hr, if_true]
          exact Nat.succ_le_succ hle
        · intro hc
          simp only [dlStep, hr, if_true] at hc ⊢
          have hcj : (dlRun o m n).count = j := Nat.succ_injective hc
          have : (o (dlRun o m n).count).length = 0 := by
            rw [hcj, hj]; rfl
          rw [if_pos this]
          split <;> rfl
      · rw [Bool.not_eq_true] at hr
        rw [dlStep_stopped hr]
        exact ⟨ih.1, fun _ => hr⟩

/-- After `m` iterations (for `m ≥ 1`) the loop flag is off. -/
theorem dlRun_stopped_at_max (o : Nat → List String) (m : Nat) (hm : 1 ≤ m) :
    (dlRun o m m).run_download = false := by
  by_contra h
  rw [Bool.not_eq_false] at h
  have hc := dlRun_count_of_running o m m h
  have := (dlRun_count_le o m hm m).2 hc
  rw [this] at h
  exact absurd h (by simp)

/-- The loop state is stationary from iteration `m` on. -/
theorem dlRun_stationary (o : Nat → List String) (m : Nat) (hm : 1 ≤ m) :
    ∀ f, m ≤ f → dlRun o m f = dlRun o m m := by
  intro f hf
  obtain ⟨k, rfl⟩ := Nat.exists_eq_add_of_le hf
  induction k with
  | zero => rfl
  | succ n ih =>
      have : m + (n + 1) = (m + n) + 1 := rfl
      rw [this, dlRun_succ, ih (Nat.le_add_right m n)]
      exact dlStep_stopped (dlRun_stopped_at_max o m hm)

/-! ### Monotonicity of the scan effects -/

theorem processEntry_corrupt_mono {directory x : String} {s : ScanState}
    (e : FsEntry) (h : x ∈ s.corrupt) :
    x ∈ (processEntry directory s e).corrupt := by
  unfold processEntry
  split
  · exact h
  · exact List.mem_append_left _ h

theorem processEntry_removed_mono {directory x : String} {s : ScanState}
    (e : FsEntry) (h : x ∈ s.removed) :
    x ∈ (processEntry directory s e).removed := by
  unfold processEntry
  split
  · exact h
  · exact List.mem_append_left _ h

theorem foldl_corrupt_mono (directory x : String) :
    ∀ (l : List FsEntry) (s : ScanState), x ∈ s.corrupt →
      x ∈ (l.foldl (processEntry directory) s).corrupt := by
  intro l
  induction l with
  | nil => intro s h; exact h
  | cons e rest ih =>
      intro s h
      exact ih _ (processEntry_corrupt_mono e h)

theorem foldl_removed_mono (directory x : String) :
    ∀ (l : List FsEntry) (s : ScanState), x ∈ s.removed →
      x ∈ (l.foldl (processEntry directory) s).removed := by
  intro l
  induction l with
  | nil => intro s h; exact h
  | cons e rest ih =>
      intro s h
      exact ih _ (processEntry_removed_mono e h)

/-! ### Claim theorems for download.py -/

/-- C5: for all `maxAttempts ≥ 1` and every sequence of per-round
extraction outcomes, the retry loop of `download_and_extract` executes
at most `maxAttempts` rounds (the round counter never exceeds it),
terminates (the loop flag is off after `maxAttempts` iterations and
the state is stationary from there on), and stops immediately after
the first round whose corrupt-file list is empty: the counter never
moves past such a round. -/
theorem download_rounds_bounded (o : Nat → List String) (m : Nat)
    (hm : 1 ≤ m) :
    (∀ f, (dlRun o m f).count ≤ m)
    ∧ (dlRun o m m).run_download = false
    ∧ (∀ f, m ≤ f → dlRun o m f = dlRun o m m)
    ∧ (∀ j, o j = [] → ∀ f, (dlRun o m f).count ≤ j + 1) :=
  ⟨fun f => (dlRun_count_le o m hm f).1,
   dlRun_stopped_at_max o m hm,
   dlRun_stationary o m hm,
   fun j hj f => (dlRun_count_le_of_empty o m j hj f).1⟩

/-- Round outcomes used by the concrete witnesses: round 0 finds one
corrupt file, every later round none. -/
def wOutcomes : Nat → List String := fun n => if n = 0 then ["bad"] else []

/-- Witness for C5 at `maxAttempts = 2` and `wOutcomes`. -/
theorem download_rounds_bounded_witness :
    (∀ f, (dlRun wOutcomes 2 f).count ≤ 2)
    ∧ (dlRun wOutcomes 2 2).run_download = false
    ∧ (∀ f, 2 ≤ f → dlRun wOutcomes 2 f = dlRun wOutcomes 2 2)
    ∧ (∀ j, wOutcomes j = [] → ∀ f, (dlRun wOutcomes 2 f).count ≤ j + 1) :=
  download_rounds_bounded wOutcomes 2 (by decide)

/-- Round outcomes where a corrupt path remains after the final
round. -/
def cexOutcomes : Nat → List String := fun _ => [pathJoin "dl" "bad.SAFE.zip"]

/-- C1 (counterexample): with one allowed round and a scene that stays
corrupt, the remaining corrupt list after the final round is
`["dl/bad.SAFE.zip"]`, yet `download_and_extract` evaluates to `None`
(its body has no `return` statement), not to that list. -/
theorem download_and_extract_result_cex :
    download_and_extract cexOutcomes 1 = none
    ∧ acquireSpec cexOutcomes 1 = some [pathJoin "dl" "bad.SAFE.zip"]
    ∧ download_and_extract cexOutcomes 1 ≠ acquireSpec cexOutcomes 1 := by
  refine ⟨rfl, by decide, by decide⟩

/-- C1 (amended): `download_and_extract` runs the bounded retry rounds
purely for their filesystem effects and returns `None` for every
input; the remaining corrupt paths are not returned to the caller. -/
theorem download_and_extract_returns_none (o : Nat → List String) (m : Nat) :
    download_and_extract o m = none := rfl

/-- The failing input for C4: a pre-extracted `.SAFE` directory whose
contents cannot be listed. -/
def safeDirEntry : FsEntry :=
  { name := "S2A_X.SAFE", isDir := true, listOk := false, mkdirOk := true,
    zipOpenOk := true, zipTest := none, unpackOk := true }

/-- C4 (code bug): for a `.SAFE` directory whose `os.listdir` raises,
the scan does record the path as corrupt and does leave the entry in
place (nothing is removed), but it does not continue without raising:
`os.remove(file_path)` inside the `except` handler raises an uncaught
`IsADirectoryError`, aborting the whole scan. -/
theorem safe_dir_scan_aborts :
    (extract_and_delete_tar_gz_files "dl" [safeDirEntry]).corrupt
        = [pathJoin "dl" "S2A_X.SAFE"]
    ∧ (extract_and_delete_tar_gz_files "dl" [safeDirEntry]).removed = []
    ∧ (extract_and_delete_tar_gz_files "dl" [safeDirEntry]).unpackCalls = []
    ∧ (extract_and_delete_tar_gz_files "dl" [safeDirEntry]).aborted = true := by
  decide

/-- C6: a `.SAFE.zip` archive file whose integrity test fails (a bad
member reported by `testzip()`, or `ZipFile` raising on open) is never
passed to `shutil.unpack_archive`, is recorded in the corrupt list,
and is removed from the directory; the record and the removal survive
the rest of the scan. -/
theorem corrupt_zip_never_unpacked (directory : String) (e : FsEntry)
    (s : ScanState) (post : List FsEntry)
    (hab : s.aborted = false)
    (hname : strEndsWith e.name ".SAFE.zip" = true)
    (hfile : e.isDir = false)
    (hbad : e.zipOpenOk = false ∨ e.zipTest ≠ none) :
    (processEntry directory s e).unpackCalls = s.unpackCalls
    ∧ pathJoin directory e.name ∈ (processEntry directory s e).corrupt
    ∧ pathJoin directory e.name ∈ (processEntry directory s e).removed
    ∧ (processEntry directory s e).aborted = false
    ∧ pathJoin directory e.name ∈
        ((e :: post).foldl (processEntry directory) s).corrupt
    ∧ pathJoin directory e.name ∈
        ((e :: post).foldl (processEntry directory) s).removed := by
  have htg : strEndsWith e.name ".tar.gz" = false :=
    strEndsWith_excl hname (by decide) (by decide)
  have hdelta : entryDelta directory e =
      { corrupt := [pathJoin directory e.name],
        removed := [pathJoin directory e.name],
        unpackCalls := [], extractDirsMade := [], extractDirsRemoved := [],
        aborted := false } := by
    rcases hbad with hopen | htest
    · simp [entryDelta, emptyDelta, hname, htg, hfile, hopen]
    · obtain ⟨b, hb⟩ := Option.ne_none_iff_exists'.mp htest
      rcases hopen : e.zipOpenOk with _ | _
      · simp [entryDelta, emptyDelta, hname, htg, hfile, hopen]
      · simp [entryDelta, emptyDelta, hname, htg, hfile, hopen, hb]
  have hproc : processEntry directory s e =
      { corrupt := s.corrupt ++ [pathJoin directory e.name],
        removed := s.removed ++ [pathJoin directory e.name],
        unpackCalls := s.unpackCalls,
        extractDirsMade := s.extractDirsMade,
        extractDirsRemoved := s.extractDirsRemoved,
        aborted := false } := by
    unfold processEntry
    rw [if_neg (by rw [hab]; exact Bool.false_ne_true)]
    rw [hdelta]
    simp
  have hmemc : pathJoin directory e.name ∈ (processEntry directory s e).corrupt := by
    rw [hproc]
    exact List.mem_append_right _ (List.mem_singleton.mpr rfl)
  have hmemr : pathJoin directory e.name ∈ (processEntry directory s e).removed := by
    rw [hproc]
    exact List.mem_append_right _ (List.mem_singleton.mpr rfl)
  refine ⟨by rw [hproc], hmemc, hmemr, by rw [hproc], ?_, ?_⟩
  · rw [List.foldl_cons]
    exact foldl_corrupt_mono directory _ post _ hmemc
  · rw [List.foldl_cons]
    exact foldl_removed_mono directory _ post _ hmemr

/-- The concrete bad zip archive used by the C6 witness. -/
def badZipEntry : FsEntry :=
  { name := "S2B_Y.SAFE.zip", isDir := false, listOk := true, mkdirOk := true,
    zipOpenOk := true, zipTest := some "member7", unpackOk := true }

/-- Witness for C6: the bad zip archive in an otherwise empty scan. -/
theorem corrupt_zip_never_unpacked_witness :
    (processEntry "dl" emptyDelta badZipEntry).unpackCalls = emptyDelta.unpackCalls
    ∧ pathJoin "dl" badZipEntry.name ∈ (processEntry "dl" emptyDelta badZipEntry).corrupt
    ∧ pathJoin "dl" badZipEntry.name ∈ (processEntry "dl" emptyDelta badZipEntry).removed
    ∧ (processEntry "dl" emptyDelta badZipEntry).aborted = false
    ∧ pathJoin "dl" badZipEntry.name ∈
        (([badZipEntry]).foldl (processEntry "dl") emptyDelta).corrupt
    ∧ pathJoin "dl" badZipEntry.name ∈
        (([badZipEntry]).foldl (processEntry "dl") emptyDelta).removed :=
  corrupt_zip_never_unpacked "dl" badZipEntry emptyDelta [] rfl (by decide)
    rfl (Or.inr (by decide))

/-! ## indices.py — the index-derivation stage -/

/-- A value of the `"formula"` key of the `INDICES` table.  For NDVI
and NDSI the Python source stores a plain string; for NDMI it stores a
one-element set literal `{"..."}`, which an f-string renders as the
set's `str` (braces and quotes around the formula). -/
inductive PyFormula
  | str (s : String)
  | strset (s : String)
deriving Repr, DecidableEq

/-- A single quote character, used by the Python `str` of a set. -/
def singleQuote : String := (Char.ofNat 39).toString

/-- What `f"{formula}"` produces for the stored value. -/
def PyFormula.render : PyFormula → String
  | .str s => s
  | .strset s => "\x7b" ++ singleQuote ++ s ++ singleQuote ++ "\x7d"

/-- The two band indices registered for one sensor family. -/
structure SensorBands where
  A : Nat
  B : Nat
deriving Repr, DecidableEq

/-- One entry of the `INDICES` table. -/
structure IndexEntry where
  longName : String
  formula : PyFormula
  sentinel2 : SensorBands
  landsat : SensorBands
deriving Repr, DecidableEq

/-- The formula text shared by all three table entries. -/
def ndFormula : String := "((A.astype(float)-B)/(A.astype(float)+B))"

/-- The `INDICES` table of `sadasadam/indices.py`.  Note that the NDMI
entry stores its formula inside a set literal. -/
def INDICES : List (String × IndexEntry) :=
  [("NDVI", { longName := "Normalized Difference Vegetation Index",
              formula := .str ndFormula,
              sentinel2 := { A := 4, B := 8 }, landsat := { A := 3, B := 5 } }),
   ("NDSI", { longName := "Normalized Difference Snow Index",
              formula := .str ndFormula,
              sentinel2 := { A := 3, B := 11 }, landsat := { A := 4, B := 6 } }),
   ("NDMI", { longName := "Normalized Difference Moisture Index",
              formula := .strset ndFormula,
              sentinel2 := { A := 8, B := 11 }, landsat := { A := 5, B := 6 } })]

/-- Python `INDICES[index]` / `index in INDICES.keys()`. -/
def indicesLookup (idx : String) : Option IndexEntry :=
  (INDICES.find? (fun p => p.1 == idx)).map Prod.snd

/-- A file I/O action of the index-derivation stage, in the order the
stage performs them. -/
inductive IOAction
  | makeOutputDir (dir : String)
  | listInputDir (dir : String)
  | readF (path : String)
  | writeF (path : String)
deriving Repr, DecidableEq

/-- The fields of a constructed `CreateIndices` object. -/
structure CreateIndices where
  indir : String
  outdir : String
  index : String
deriving Repr, DecidableEq

/-- `CreateIndices.__init__(indir, outdir, index)`: stores `indir`,
creates the output directory via `makedirs(outdir)`, and only then
checks the index name against `INDICES.keys()`, raising when it is
absent.  The first component is the I/O trace performed before the
constructor returns or raises. -/
def createIndices_init (indir outdir index : String) :
    List IOAction × Except String CreateIndices :=
  ([IOAction.makeOutputDir outdir],
    match indicesLookup index with
    | some _ => Except.ok { indir := indir, outdir := outdir, index := index }
    | none => Except.error
        ("Index " ++ index ++ " not available in the list of supported indices"))

/-- The `gdal_calc.py` invocation built for one composite file, exactly
as `CreateIndices.calculate` assembles it. -/
def buildIndexCmd (indir outdir index : String) (formula : PyFormula)
    (bands : SensorBands) (file : String) : List String :=
  let name_file := strReplace (basename file) "BOA_clearsky" index
  let out_file := pathJoin outdir name_file
  let in_file := pathJoin indir file
  ["gdal_calc.py",
   "-A", in_file,
   "--a_band=" ++ toString bands.A,
   "-B", in_file,
   "--b_band=" ++ toString bands.B,
   "--outfile=" ++ out_file,
   "--calc=\"" ++ formula.render ++ "\"",
   "--type=Float32",
   "--creation-option=COMPRESS=ZSTD",
   "--creation-option=TILED=YES",
   "--creation-option=PREDICTOR=2",
   "--creation-option=BIGTIFF=YES"]

/-- The per-file loop of `CreateIndices.calculate`.  The Python local
`bands` is only assigned inside the `if "SEN2" ... elif "LND" ...`
branches, so for a file with neither marker it keeps the value from an
earlier iteration — or is unbound (a `NameError`) when no earlier file
assigned it; `bandsVar` carries that binding. -/
def calcGo (indir outdir index : String) (entry : IndexEntry) :
    List String → Option SensorBands → List (List String) →
    Except String (List (List String))
  | [], _, acc => Except.ok acc
  | file :: rest, bandsVar, acc =>
      let bandsVar := if strContains file "SEN2" then some entry.sentinel2
                      else if strContains file "LND" then some entry.landsat
                      else bandsVar
      match bandsVar with
      | none => Except.error "NameError: name bands is not defined"
      | some bands =>
          calcGo indir outdir index entry rest (some bands)
            (acc ++ [buildIndexCmd indir outdir index entry.formula bands file])

/-- `CreateIndices.calculate`: filter the input listing down to the
`*BOA_clearsky.tif` composites and build one `gdal_calc.py` invocation
per file (the invocations are then run in parallel). -/
def CreateIndices.calculate (st : CreateIndices) (all_files : List String) :
    Except String (List (List String)) :=
  let files_to_process := all_files.filter
    (fun f => strEndsWith f "BOA_clearsky.tif")
  match indicesLookup st.index with
  | some entry => calcGo st.indir st.outdir st.index entry files_to_process none []
  | none => Except.error "KeyError"

/-! ### Claim theorems for indices.py -/

/-- C2 (counterexample): constructing the stage with the unsupported
index name `"EVI"` raises, but only after the output directory has
been created — the I/O trace at raise time is not empty. -/
theorem unsupported_index_cex :
    (createIndices_init "in" "out" "EVI").1 = [IOAction.makeOutputDir "out"]
    ∧ (createIndices_init "in" "out" "EVI").2
        = Except.error "Index EVI not available in the list of supported indices"
    ∧ (createIndices_init "in" "out" "EVI").1 ≠ [] := by
  refine ⟨rfl, rfl, by decide⟩

/-- C2 (amended): for every index name absent from the supported
table, `CreateIndices.__init__` raises before the input directory is
listed and before any file is read or written — but only after the
output directory has been created, because `makedirs(outdir)` runs
before the membership check. -/
theorem unsupported_index_fatal (indir outdir index : String)
    (h : indicesLookup index = none) :
    (createIndices_init indir outdir index).1 = [IOAction.makeOutputDir outdir]
    ∧ (∃ msg, (createIndices_init indir outdir index).2 = Except.error msg)
    ∧ (∀ a ∈ (createIndices_init indir outdir index).1,
        a ≠ IOAction.listInputDir indir
        ∧ ∀ p, a ≠ IOAction.readF p ∧ a ≠ IOAction.writeF p) := by
  refine ⟨rfl, ⟨"Index " ++ index ++ " not available in the list of supported indices",
    by simp [createIndices_init, h]⟩, ?_⟩
  intro a ha
  simp only [createIndices_init, List.mem_singleton] at ha
  subst ha
  exact ⟨by simp, fun p => ⟨by simp, by simp⟩⟩

/-- Witness for C2 (amended) at the index name `"EVI"`. -/
theorem unsupported_index_fatal_witness :
    (createIndices_init "in" "out" "EVI").1 = [IOAction.makeOutputDir "out"]
    ∧ (∃ msg, (createIndices_init "in" "out" "EVI").2 = Except.error msg)
    ∧ (∀ a ∈ (createIndices_init "in" "out" "EVI").1,
        a ≠ IOAction.listInputDir "in"
        ∧ ∀ p, a ≠ IOAction.readF p ∧ a ≠ IOAction.writeF p) :=
  unsupported_index_fatal "in" "out" "EVI" (by decide)

/-- C3 (code bug): a composite matching the composite pattern but
carrying neither a `SEN2` nor a `LND` marker is not silently skipped.
As the first file it makes `calculate` raise a `NameError` (the Python
local `bands` was never assigned); after a recognized Sentinel-2 file
it gets a `gdal_calc.py` invocation scheduled with the preceding
file's band pair. -/
theorem unrecognized_sensor_not_skipped :
    (CreateIndices.calculate { indir := "in", outdir := "out", index := "NDVI" }
        ["X_BOA_clearsky.tif"]
      = Except.error "NameError: name bands is not defined")
    ∧ (CreateIndices.calculate { indir := "in", outdir := "out", index := "NDVI" }
        ["SEN2_A_BOA_clearsky.tif", "X_BOA_clearsky.tif"]
      = Except.ok
          [buildIndexCmd "in" "out" "NDVI" (.str ndFormula) { A := 4, B := 8 }
             "SEN2_A_BOA_clearsky.tif",
           buildIndexCmd "in" "out" "NDVI" (.str ndFormula) { A := 4, B := 8 }
             "X_BOA_clearsky.tif"]) := by
  exact ⟨rfl, rfl⟩

/-- C10 (counterexample): for the supported index NDMI over a
Sentinel-2 composite, the `--calc` argument is the rendering of the
set literal the table stores, not the index's formula string. -/
theorem index_cmd_formula_cex :
    (CreateIndices.calculate { indir := "in", outdir := "out", index := "NDMI" }
        ["SEN2_A_BOA_clearsky.tif"]
      = Except.ok
          [buildIndexCmd "in" "out" "NDMI" (.strset ndFormula) { A := 8, B := 11 }
             "SEN2_A_BOA_clearsky.tif"])
    ∧ (buildIndexCmd "in" "out" "NDMI" (.strset ndFormula) { A := 8, B := 11 }
         "SEN2_A_BOA_clearsky.tif").get? 8
        ≠ some ("--calc=\"" ++ ndFormula ++ "\"") := by
  refine ⟨rfl, by decide⟩

/-- Evaluation of `calculate` on a two-file listing whose first file
carries a Sentinel-2 marker and whose second carries a Landsat
marker. -/
theorem calculate_two_files (indir outdir idx : String) (entry : IndexEntry)
    (hlook : indicesLookup idx = some entry)
    (f g : String)
    (hf : strContains f "SEN2" = true)
    (hg1 : strContains g "SEN2" = false)
    (hg2 : strContains g "LND" = true)
    (hfe : strEndsWith f "BOA_clearsky.tif" = true)
    (hge : strEndsWith g "BOA_clearsky.tif" = true) :
    CreateIndices.calculate { indir := indir, outdir := outdir, index := idx } [f, g]
      = Except.ok
          [buildIndexCmd indir outdir idx entry.formula entry.sentinel2 f,
           buildIndexCmd indir outdir idx entry.formula entry.landsat g] := by
  have hfilter : List.filter (fun fl => strEndsWith fl "BOA_clearsky.tif") [f, g]
      = [f, g] := by
    simp [hfe, hge]
  simp only [CreateIndices.calculate]
  rw [hfilter, hlook]
  simp only [calcGo, hf, hg1, hg2, if_true, if_false]
  simp

/-- C10 (amended): for the supported indices whose table entry stores
the formula as a plain string (NDVI and NDSI) and every composite with
a recognized sensor marker, `CreateIndices.calculate` schedules a
`gdal_calc.py` invocation whose `--calc` argument carries exactly the
formula string, whose band arguments are the pair registered for that
sensor (for NDVI: A=4/B=8 on a Sentinel-2 name, A=3/B=5 on a Landsat
name), with a Float32 compressed output named by substituting the
composite suffix with the index name; for NDMI the table stores the
formula inside a set literal, so the `--calc` argument is that set's
rendering instead (see the counterexample). -/
theorem index_cmd_formula_and_bands (idx : String) (entry : IndexEntry)
    (hidx : idx = "NDVI" ∨ idx = "NDSI")
    (hlook : indicesLookup idx = some entry)
    (indir outdir f g : String)
    (hf : strContains f "SEN2" = true)
    (hg1 : strContains g "SEN2" = false)
    (hg2 : strContains g "LND" = true)
    (hfe : strEndsWith f "BOA_clearsky.tif" = true)
    (hge : strEndsWith g "BOA_clearsky.tif" = true) :
    CreateIndices.calculate { indir := indir, outdir := outdir, index := idx } [f, g]
      = Except.ok
          [buildIndexCmd indir outdir idx entry.formula entry.sentinel2 f,
           buildIndexCmd indir outdir idx entry.formula entry.landsat g]
    ∧ entry.formula = PyFormula.str ndFormula
    ∧ PyFormula.render entry.formula = ndFormula
    ∧ (buildIndexCmd indir outdir idx entry.formula entry.sentinel2 f).get? 8
        = some ("--calc=\"" ++ ndFormula ++ "\"")
    ∧ (buildIndexCmd indir outdir idx entry.formula entry.sentinel2 f).get? 3
        = some ("--a_band=" ++ toString entry.sentinel2.A)
    ∧ (buildIndexCmd indir outdir idx entry.formula entry.sentinel2 f).get? 6
        = some ("--b_band=" ++ toString entry.sentinel2.B)
    ∧ (buildIndexCmd indir outdir idx entry.formula entry.sentinel2 f).get? 7
        = some ("--outfile=" ++
            pathJoin outdir (strReplace (basename f) "BOA_clearsky" idx))
    ∧ "--type=Float32" ∈ buildIndexCmd indir outdir idx entry.formula entry.sentinel2 f
    ∧ "--creation-option=COMPRESS=ZSTD"
        ∈ buildIndexCmd indir outdir idx entry.formula entry.sentinel2 f
    ∧ (idx = "NDVI" →
        entry.sentinel2 = { A := 4, B := 8 } ∧ entry.landsat = { A := 3, B := 5 }) := by
  rcases hidx with h | h <;> subst h
  · have hl : indicesLookup "NDVI" = some
        { longName := "Normalized Difference Vegetation Index",
          formula := PyFormula.str ndFormula,
          sentinel2 := { A := 4, B := 8 }, landsat := { A := 3, B := 5 } } := rfl
    rw [hl] at hlook
    obtain rfl := Option.some.inj hlook
    exact ⟨calculate_two_files indir outdir "NDVI" _ rfl f g hf hg1 hg2 hfe hge,
      rfl, rfl, rfl, rfl, rfl, rfl,
      by simp [buildIndexCmd], by simp [buildIndexCmd], fun _ => ⟨rfl, rfl⟩⟩
  · have hl : indicesLookup "NDSI" = some
        { longName := "Normalized Difference Snow Index",
          formula := PyFormula.str ndFormula,
          sentinel2 := { A := 3, B := 11 }, landsat := { A := 4, B := 6 } } := rfl
    rw [hl] at hlook
    obtain rfl := Option.some.inj hlook
    exact ⟨calculate_two_files indir outdir "NDSI" _ rfl f g hf hg1 hg2 hfe hge,
      rfl, rfl, rfl, rfl, rfl, rfl,
      by simp [buildIndexCmd], by simp [buildIndexCmd],
      fun h => absurd h (by decide)⟩

/-- Witness for C10 (amended): NDVI over one Sentinel-2-named and one
Landsat-named composite. -/
theorem index_cmd_formula_and_bands_witness :
    CreateIndices.calculate { indir := "in", outdir := "out", index := "NDVI" }
        ["A_SEN2_BOA_clearsky.tif", "B_LND_BOA_clearsky.tif"]
      = Except.ok
          [buildIndexCmd "in" "out" "NDVI" (PyFormula.str ndFormula) { A := 4, B := 8 }
             "A_SEN2_BOA_clearsky.tif",
           buildIndexCmd "in" "out" "NDVI" (PyFormula.str ndFormula) { A := 3, B := 5 }
             "B_LND_BOA_clearsky.tif"]
    ∧ (PyFormula.str ndFormula : PyFormula) = PyFormula.str ndFormula
    ∧ PyFormula.render (PyFormula.str ndFormula) = ndFormula
    ∧ (buildIndexCmd "in" "out" "NDVI" (PyFormula.str ndFormula) { A := 4, B := 8 }
         "A_SEN2_BOA_clearsky.tif").get? 8
        = some ("--calc=\"" ++ ndFormula ++ "\"")
    ∧ (buildIndexCmd "in" "out" "NDVI" (PyFormula.str ndFormula) { A := 4, B := 8 }
         "A_SEN2_BOA_clearsky.tif").get? 3
        = some ("--a_band=" ++ toString (SensorBands.mk 4 8).A)
    ∧ (buildIndexCmd "in" "out" "NDVI" (PyFormula.str ndFormula) { A := 4, B := 8 }
         "A_SEN2_BOA_clearsky.tif").get? 6
        = some ("--b_band=" ++ toString (SensorBands.mk 4 8).B)
    ∧ (buildIndexCmd "in" "out" "NDVI" (PyFormula.str ndFormula) { A := 4, B := 8 }
         "A_SEN2_BOA_clearsky.tif").get? 7
        = some ("--outfile=" ++
            pathJoin "out" (strReplace (basename "A_SEN2_BOA_clearsky.tif")
              "BOA_clearsky" "NDVI"))
    ∧ "--type=Float32" ∈ buildIndexCmd "in" "out" "NDVI" (PyFormula.str ndFormula)
        { A := 4, B := 8 } "A_SEN2_BOA_clearsky.tif"
    ∧ "--creation-option=COMPRESS=ZSTD"
        ∈ buildIndexCmd "in" "out" "NDVI" (PyFormula.str ndFormula)
            { A := 4, B := 8 } "A_SEN2_BOA_clearsky.tif"
    ∧ ("NDVI" = "NDVI" →
        (SensorBands.mk 4 8 : SensorBands) = { A := 4, B := 8 }
        ∧ (SensorBands.mk 3 5 : SensorBands) = { A := 3, B := 5 }) :=
  index_cmd_formula_and_bands "NDVI"
    { longName := "Normalized Difference Vegetation Index",
      formula := PyFormula.str ndFormula,
      sentinel2 := { A := 4, B := 8 }, landsat := { A := 3, B := 5 } }
    (Or.inl rfl) rfl "in" "out" "A_SEN2_BOA_clearsky.tif" "B_LND_BOA_clearsky.tif"
    (by decide) (by decide) (by decide) (by decide) (by decide)

/-! ## force.py — the postprocessing pipeline

`ForceProcess.postprocess(target_dir, x_min, y_min, x_max, y_max,
n_procs, save_qai)` clips the mosaics, derives per-tile clear-sky
masks, filters empty tiles by band checksum, composites, and repairs
band descriptions.  The embedding takes the mosaic-directory listing
and a checksum oracle for the derived mask files as inputs and records
the adapter calls and output files as effect lists. -/

/-- The two suffix substitutions applied to a mosaic name to obtain
its clipped output name. -/
def clipOutName (file : String) : String :=
  strReplace (strReplace file "BOA.vrt" "BOA_clipped.vrt") "QAI.vrt" "QAI_clipped.vrt"

/-- The `files_to_clip` list: one `[in_file, out_file]` pair per mosaic
whose name ends in `BOA.vrt` or `QAI.vrt`. -/
def files_to_clip (mosaic_path : String) (files : List String) :
    List (String × String) :=
  (files.filter (fun f => strEndsWith f "BOA.vrt" || strEndsWith f "QAI.vrt")).map
    (fun f => (pathJoin mosaic_path f, pathJoin mosaic_path (clipOutName f)))

/-- The clipped outputs classified as surface reflectance
(`"BOA" in out_file`). -/
def clipped_boa_files (pairs : List (String × String)) : List String :=
  (pairs.map Prod.snd).filter (fun o => strContains o "BOA")

/-- The clipped outputs classified as quality flags
(`elif "QAI" in out_file`). -/
def clipped_qai_files (pairs : List (String × String)) : List String :=
  (pairs.map Prod.snd).filter (fun o => !strContains o "BOA" && strContains o "QAI")

/-- Name of the clear-sky mask derived from a clipped QAI file. -/
def clearskyNameOf (qai_file : String) : String :=
  strReplace qai_file "QAI_clipped.vrt" "clearsky.tif"

/-- The `gdal_calc.py` invocation deriving the clear-sky mask. -/
def clearskyCmdOf (qai_file : String) : List String :=
  ["gdal_calc.py", "-A", qai_file,
   "--outfile=" ++ clearskyNameOf qai_file,
   "--calc=\"((A >> 1) & 3) == 0\"",
   "--NoDataValue=0",
   "--type=Byte",
   "--creation-option=COMPRESS=ZSTD",
   "--creation-option=BIGTIFF=YES"]

/-- The clipped BOA file corresponding to a clear-sky mask. -/
def boaFileOf (clearsky_file : String) : String :=
  strReplace clearsky_file "clearsky.tif" "BOA_clipped.vrt"

/-- The composite output name derived from a clipped BOA file. -/
def outBoaNameOf (boa_file : String) : String :=
  strReplace (basename boa_file) "BOA_clipped.vrt" "BOA_clearsky.tif"

/-- The `gdal_calc.py` invocation masking a clipped BOA raster by its
clear-sky mask. -/
def cloudfreeCmdOf (boa_file clearsky_file out_boa_file : String) : List String :=
  ["gdal_calc.py", "-A", boa_file, "-B", clearsky_file,
   "--outfile=" ++ out_boa_file,
   "--calc=\"A*B\"",
   "--allBands=A",
   "--creation-option=COMPRESS=ZSTD",
   "--creation-option=TILED=YES",
   "--creation-option=PREDICTOR=2",
   "--creation-option=BIGTIFF=YES"]

/-- The GeoTiff name under which a clipped QAI file is saved when
`save_qai` is set. -/
def qaiTifNameOf (qai_file : String) : String :=
  strReplace (basename qai_file) ".vrt" ".tif"

/-- The effects of one `postprocess` run:
`raisedNoFiles` — the empty-mosaic-directory exception was raised;
`clipCalls` — the `gdal.Translate` clip invocations (in, out);
`clearskyCmds` — the scheduled mask derivations;
`copiedMasks` — the clear-sky mask files copied to the target dir;
`compositeCmds` — the scheduled masking invocations;
`qaiSaved` — the clipped QAI rasters materialized in the target dir;
`bandRepairs` — the `boa_input_output` pairs the final
band-description loop runs over;
`outputFiles` — every path written into the target directory. -/
structure PostEffects where
  raisedNoFiles : Bool
  clipCalls : List (String × String)
  clearskyCmds : List (List String)
  copiedMasks : List String
  compositeCmds : List (List String)
  qaiSaved : List String
  bandRepairs : List (String × String)
  outputFiles : List String
deriving Repr, DecidableEq

/-- `ForceProcess.postprocess` over the mosaic-directory listing
`files_in_mosaic_dir`, with `cks` giving the band-1 checksum of each
derived clear-sky mask file.  The per-tile loop pairs each clear-sky
file with its clipped QAI source positionally (`enumerate` over lists
built in the same order), which the embedding renders by mapping over
the clipped QAI list directly. -/
def ForceProcess.postprocess (mosaic_path target_dir : String)
    (files_in_mosaic_dir : List String) (cks : String → Nat)
    (save_qai : Bool) : PostEffects :=
  if files_in_mosaic_dir.length = 0 then
    { raisedNoFiles := true, clipCalls := [], clearskyCmds := [],
      copiedMasks := [], compositeCmds := [], qaiSaved := [],
      bandRepairs := [], outputFiles := [] }
  else
    let pairs := files_to_clip mosaic_path files_in_mosaic_dir
    let qais := clipped_qai_files pairs
    let kept := qais.filter (fun q => 0 < cks (clearskyNameOf q))
    let masks := kept.map clearskyNameOf
    let inOut := kept.map (fun q =>
      let boa_file := boaFileOf (clearskyNameOf q)
      (boa_file, pathJoin target_dir (outBoaNameOf boa_file)))
    let comp := kept.map (fun q =>
      let cs := clearskyNameOf q
      let boa_file := boaFileOf cs
      cloudfreeCmdOf boa_file cs (pathJoin target_dir (outBoaNameOf boa_file)))
    let qsave := if save_qai then
        kept.map (fun q => pathJoin target_dir (qaiTifNameOf q))
      else []
    { raisedNoFiles := false,
      clipCalls := pairs,
      clearskyCmds := qais.map clearskyCmdOf,
      copiedMasks := masks,
      compositeCmds := comp,
      qaiSaved := qsave,
      bandRepairs := inOut,
      outputFiles := masks.map (fun cs => pathJoin target_dir (basename cs))
        ++ inOut.map Prod.snd ++ qsave }

/-! ### Raster metadata model for the band-description repair -/

/-- The metadata of a raster file: its band count and the description
text of each (1-indexed) band. -/
structure Raster where
  numBands : Nat
  desc : Nat → String

/-- The output of the raster-algebra adapter (`gdal_calc.py`) on a
source raster: same band count, but the per-band descriptions are not
propagated (the source comment and the spec both state that raster
algebra tools drop this metadata). -/
def rasterAlgebraResult (source : Raster) : Raster :=
  { numBands := source.numBands, desc := fun _ => "" }

/-- `update_band_description_from_reference(target, reference)`: reads
the description of bands `1..reference.numBands` from the reference
and sets them on the same-numbered bands of the target.  When the
target has fewer bands, `GetRasterBand` returns `None` and the loop
raises; both rasters having the same band count is the documented
precondition. -/
def update_band_description_from_reference (target reference : Raster) :
    Except String Raster :=
  if reference.numBands ≤ target.numBands then
    Except.ok { target with
      desc := fun i =>
        if 1 ≤ i ∧ i ≤ reference.numBands then reference.desc i else target.desc i }
  else Except.error "AttributeError: NoneType has no attribute SetDescription"

/-! ### Claim theorems for force.py -/

/-- Every scheduled index invocation reads one of the listed files
matching the composite pattern (helper for C7). -/
theorem calcGo_cmds_read_listed (indir outdir index : String)
    (entry : IndexEntry) :
    ∀ (fs : List String) (bv : Option SensorBands) (acc : List (List String))
      (r : List (List String)),
      calcGo indir outdir index entry fs bv acc = Except.ok r →
      ∀ cmd ∈ r, cmd ∈ acc ∨
        ∃ f ∈ fs, ∃ b, cmd = buildIndexCmd indir outdir index entry.formula b f := by
  intro fs
  induction fs with
  | nil =>
      intro bv acc r h cmd hc
      simp only [calcGo] at h
      cases h
      exact Or.inl hc
  | cons f rest ih =>
      intro bv acc r h cmd hc
      simp only [calcGo] at h
      rcases hbv : (if strContains f "SEN2" then some entry.sentinel2
          else if strContains f "LND" then some entry.landsat else bv) with _ | b
      · rw [hbv] at h
        cases h
      · rw [hbv] at h
        rcases ih (some b) _ r h cmd hc with hacc | ⟨f', hf', b', hb'⟩
        · rcases List.mem_append.mp hacc with h1 | h2
          · exact Or.inl h1
          · exact Or.inr ⟨f, List.mem_cons_self f rest, b,
              (List.mem_singleton.mp h2)⟩
        · exact Or.inr ⟨f', List.mem_cons_of_mem f hf', b', hb'⟩

/-- C7: a tile whose derived clear-sky mask has band checksum 0 is
excluded from every postprocessing output: each copied mask, each
scheduled compositing invocation, each saved QAI raster (even with
`save_qai` set) and each file of the output directory stems from a
tile whose mask checksum is positive, and the index stage only
schedules invocations reading files from the listing it is given, so
no index is ever computed from the excluded tile. -/
theorem zero_checksum_tile_excluded (mosaic_path target_dir : String)
    (files : List String) (cks : String → Nat) (save_qai : Bool) :
    (∀ m ∈ (ForceProcess.postprocess mosaic_path target_dir files cks
        save_qai).copiedMasks, 0 < cks m)
    ∧ (∀ cmd ∈ (ForceProcess.postprocess mosaic_path target_dir files cks
        save_qai).compositeCmds,
        ∃ q ∈ clipped_qai_files (files_to_clip mosaic_path files),
          0 < cks (clearskyNameOf q) ∧
          cmd = cloudfreeCmdOf (boaFileOf (clearskyNameOf q)) (clearskyNameOf q)
            (pathJoin target_dir (outBoaNameOf (boaFileOf (clearskyNameOf q)))))
    ∧ (∀ p ∈ (ForceProcess.postprocess mosaic_path target_dir files cks
        save_qai).qaiSaved,
        ∃ q ∈ clipped_qai_files (files_to_clip mosaic_path files),
          0 < cks (clearskyNameOf q) ∧ p = pathJoin target_dir (qaiTifNameOf q))
    ∧ (∀ out ∈ (ForceProcess.postprocess mosaic_path target_dir files cks
        save_qai).outputFiles,
        ∃ q ∈ clipped_qai_files (files_to_clip mosaic_path files),
          0 < cks (clearskyNameOf q))
    ∧ (∀ (st : CreateIndices) (fs : List String) (r : List (List String)),
        CreateIndices.calculate st fs = Except.ok r →
        ∀ cmd ∈ r, ∃ f ∈ fs, strEndsWith f "BOA_clearsky.tif" = true
          ∧ cmd.get? 2 = some (pathJoin st.indir f)) := by
  by_cases hlen : files.length = 0
  · refine ⟨?_, ?_, ?_, ?_, ?_⟩
    all_goals try
      simp only [ForceProcess.postprocess, hlen, if_pos]
    · intro m hm; cases hm
    · intro cmd hc; cases hc
    · intro p hp; cases hp
    · intro out ho; cases ho
    · intro st fs r h cmd hc
      rcases hl : indicesLookup st.index with _ | entry
      · simp only [CreateIndices.calculate, hl] at h
        cases h
      · simp only [CreateIndices.calculate, hl] at h
        rcases calcGo_cmds_read_listed st.indir st.outdir st.index entry _ none [] r
            h cmd hc with habs | ⟨f, hf, b, rfl⟩
        · cases habs
        · have hmem := List.mem_filter.mp hf
          exact ⟨f, hmem.1, hmem.2, rfl⟩
  · have hpost : ForceProcess.postprocess mosaic_path target_dir files cks save_qai
        = { raisedNoFiles := false,
            clipCalls := files_to_clip mosaic_path files,
            clearskyCmds := (clipped_qai_files (files_to_clip mosaic_path files)).map
              clearskyCmdOf,
            copiedMasks := ((clipped_qai_files (files_to_clip mosaic_path files)).filter
              (fun q => 0 < cks (clearskyNameOf q))).map clearskyNameOf,
            compositeCmds := ((clipped_qai_files (files_to_clip mosaic_path files)).filter
              (fun q => 0 < cks (clearskyNameOf q))).map (fun q =>
                cloudfreeCmdOf (boaFileOf (clearskyNameOf q)) (clearskyNameOf q)
                  (pathJoin target_dir (outBoaNameOf (boaFileOf (clearskyNameOf q))))),
            qaiSaved := if save_qai then
                ((clipped_qai_files (files_to_clip mosaic_path files)).filter
                  (fun q => 0 < cks (clearskyNameOf q))).map
                    (fun q => pathJoin target_dir (qaiTifNameOf q))
              else [],
            bandRepairs := ((clipped_qai_files (files_to_clip mosaic_path files)).filter
              (fun q => 0 < cks (clearskyNameOf q))).map (fun q =>
                (boaFileOf (clearskyNameOf q),
                 pathJoin target_dir (outBoaNameOf (boaFileOf (clearskyNameOf q))))),
            outputFiles := (((clipped_qai_files (files_to_clip mosaic_path files)).filter
                (fun q => 0 < cks (clearskyNameOf q))).map clearskyNameOf).map
                  (fun cs => pathJoin target_dir (basename cs))
              ++ (((clipped_qai_files (files_to_clip mosaic_path files)).filter
                (fun q => 0 < cks (clearskyNameOf q))).map (fun q =>
                  (boaFileOf (clearskyNameOf q),
                   pathJoin target_dir (outBoaNameOf (boaFileOf (clearskyNameOf q)))))).map
                    Prod.snd
              ++ (if save_qai then
                  ((clipped_qai_files (files_to_clip mosaic_path files)).filter
                    (fun q => 0 < cks (clearskyNameOf q))).map
                      (fun q => pathJoin target_dir (qaiTifNameOf q))
                else []) } := by
      simp only [ForceProcess.postprocess, hlen, if_neg]
      rfl
    refine ⟨?_, ?_, ?_, ?_, ?_⟩
    · intro m hm
      rw [hpost] at hm
      simp only [List.mem_map, List.mem_filter] at hm
      obtain ⟨q, ⟨_, hq⟩, rfl⟩ := hm
      exact of_decide_eq_true hq
    · intro cmd hc
      rw [hpost] at hc
      simp only [List.mem_map, List.mem_filter] at hc
      obtain ⟨q, ⟨hqm, hq⟩, rfl⟩ := hc
      exact ⟨q, hqm, of_decide_eq_true hq, rfl⟩
    · intro p hp
      rw [hpost] at hp
      by_cases hs : save_qai = true
      · rw [hs] at hp
        simp only [if_pos, List.mem_map, List.mem_filter] at hp
        obtain ⟨q, ⟨hqm, hq⟩, rfl⟩ := hp
        exact ⟨q, hqm, of_decide_eq_true hq, rfl⟩
      · rw [Bool.not_eq_true] at hs
        rw [hs] at hp
        simp only [Bool.false_eq_true, if_false] at hp
        cases hp
    · intro out ho
      rw [hpost] at ho
      simp only [List.mem_append] at ho
      rcases ho with (h1 | h2) | h3
      · simp only [List.mem_map, List.mem_filter] at h1
        obtain ⟨cs, ⟨q, ⟨hqm, hq⟩, rfl⟩, rfl⟩ := h1
        exact ⟨q, hqm, of_decide_eq_true hq⟩
      · simp only [List.mem_map, List.mem_filter] at h2
        obtain ⟨pr, ⟨q, ⟨hqm, hq⟩, rfl⟩, rfl⟩ := h2
        exact ⟨q, hqm, of_decide_eq_true hq⟩
      · by_cases hs : save_qai = true
        · rw [hs] at h3
          simp only [if_pos, List.mem_map, List.mem_filter] at h3
          obtain ⟨q, ⟨hqm, hq⟩, rfl⟩ := h3
          exact ⟨q, hqm, of_decide_eq_true hq⟩
        · rw [Bool.not_eq_true] at hs
          rw [hs] at h3
          simp only [Bool.false_eq_true, if_false] at h3
          cases h3
    · intro st fs r h cmd hc
      rcases hl : indicesLookup st.index with _ | entry
      · simp only [CreateIndices.calculate, hl] at h
        cases h
      · simp only [CreateIndices.calculate, hl] at h
        rcases calcGo_cmds_read_listed st.indir st.outdir st.index entry _ none [] r
            h cmd hc with habs | ⟨f, hf, b, rfl⟩
        · cases habs
        · have hmem := List.mem_filter.mp hf
          exact ⟨f, hmem.1, hmem.2, rfl⟩

/-- C8: the band-description repair run by `postprocess` after the
compositing batch makes every band description of a composite equal to
the description of the same-numbered band of the clipped
surface-reflectance raster it was computed from, even though the
raster-algebra output alone has no band descriptions; `postprocess`
runs that repair over exactly its `boa_input_output` pairs. -/
theorem composite_band_descriptions_restored
    (mosaic_path target_dir : String) (files : List String)
    (cks : String → Nat) (save_qai : Bool) (rasterOf : String → Raster) :
    (∀ src : Raster, ∃ repaired,
      update_band_description_from_reference (rasterAlgebraResult src) src
        = Except.ok repaired
      ∧ (∀ i, 1 ≤ i → i ≤ src.numBands → repaired.desc i = src.desc i)
      ∧ repaired.numBands = src.numBands
      ∧ (∀ i, (rasterAlgebraResult src).desc i = ""))
    ∧ (∀ pr ∈ (ForceProcess.postprocess mosaic_path target_dir files cks
          save_qai).bandRepairs,
        ∃ repaired,
          update_band_description_from_reference
              (rasterAlgebraResult (rasterOf pr.1)) (rasterOf pr.1)
            = Except.ok repaired
          ∧ ∀ i, 1 ≤ i → i ≤ (rasterOf pr.1).numBands →
              repaired.desc i = (rasterOf pr.1).desc i) := by
  have hmain : ∀ src : Raster, ∃ repaired,
      update_band_description_from_reference (rasterAlgebraResult src) src
        = Except.ok repaired
      ∧ (∀ i, 1 ≤ i → i ≤ src.numBands → repaired.desc i = src.desc i)
      ∧ repaired.numBands = src.numBands
      ∧ (∀ i, (rasterAlgebraResult src).desc i = "") := by
    intro src
    refine ⟨{ numBands := src.numBands,
              desc := fun i =>
                if 1 ≤ i ∧ i ≤ src.numBands then src.desc i else "" },
      ?_, ?_, rfl, fun i => rfl⟩
    · unfold update_band_description_from_reference rasterAlgebraResult
      rw [if_pos (Nat.le_refl _)]
    · intro i h1 h2
      exact if_pos ⟨h1, h2⟩
  refine ⟨hmain, ?_⟩
  intro pr _
  obtain ⟨repaired, hok, hdesc, _, _⟩ := hmain (rasterOf pr.1)
  exact ⟨repaired, hok, hdesc⟩

/-- C9 (counterexample): a mosaic directory whose only entry is not a
mosaic output contains no mosaic outputs at all, yet `postprocess`
does not raise — the emptiness check tests the length of the raw
listing, not the presence of mosaic outputs. -/
theorem postprocess_raise_cex :
    (["readme.txt"].filter
        (fun f => strEndsWith f "BOA.vrt" || strEndsWith f "QAI.vrt")) = []
    ∧ (ForceProcess.postprocess "m" "t" ["readme.txt"] (fun _ => 1)
        false).raisedNoFiles = false := by
  exact ⟨by decide, rfl⟩

/-- C9 (amended): `postprocess` raises its fatal error if and only if
the mosaic directory listing is empty (a listing with files but no
mosaic outputs does not raise); when it raises, no clipping, masking,
compositing, copying or repair work has been performed. -/
theorem postprocess_raises_iff_no_files (mosaic_path target_dir : String)
    (files : List String) (cks : String → Nat) (save_qai : Bool) :
    ((ForceProcess.postprocess mosaic_path target_dir files cks
        save_qai).raisedNoFiles = true ↔ files = [])
    ∧ (files = [] →
        (ForceProcess.postprocess mosaic_path target_dir files cks
            save_qai).clipCalls = []
        ∧ (ForceProcess.postprocess mosaic_path target_dir files cks
            save_qai).clearskyCmds = []
        ∧ (ForceProcess.postprocess mosaic_path target_dir files cks
            save_qai).copiedMasks = []
        ∧ (ForceProcess.postprocess mosaic_path target_dir files cks
            save_qai).compositeCmds = []
        ∧ (ForceProcess.postprocess mosaic_path target_dir files cks
            save_qai).qaiSaved = []
        ∧ (ForceProcess.postprocess mosaic_path target_dir files cks
            save_qai).bandRepairs = []
        ∧ (ForceProcess.postprocess mosaic_path target_dir files cks
            save_qai).outputFiles = []) := by
  refine ⟨⟨?_, ?_⟩, ?_⟩
  · intro h
    by_contra hne
    have hlen : ¬ files.length = 0 := fun hl => hne (List.length_eq_zero.mp hl)
    simp only [ForceProcess.postprocess, if_neg hlen] at h
    exact Bool.false_ne_true h
  · intro h
    subst h
    rfl
  · intro h
    subst h
    exact ⟨rfl, rfl, rfl, rfl, rfl, rfl, rfl⟩

end Sadasadam
